import Mathlib

/-!
# AutoMediaOrganizer — verification of the pattern-rule engine and scan pipeline

Shallow embedding of the Python sources `src/MediaOrganizer.py`, `src/Preparser.py`,
`src/Tools.py` (repository Timmy93/AutoMediaOrganizer).  Pure string manipulation is
translated directly; the Python `re` module is modelled by abstract match functions
(a regex is a function from a string to an optional first-match split), with the
concrete regexes of the specification's scenarios implemented as executable scanners;
Python exceptions are modelled by an explicit error type threaded through the
translation, and `try/except` blocks by explicit catches on that type.
-/

namespace AMO

/-! ## Python value model

Values stored in the merged capture-group dictionary of `regex_rename` are either
strings (from `m.groupdict()` / `folder_match.groupdict()`), integers (from a rule's
`season_number` override), or Python `None` (a declared capture group that did not
participate in the match). -/

/-- A Python value as it occurs in the capture dictionaries of `regex_rename`. -/
inductive PyVal where
  | vstr (s : String)
  | vint (n : Int)
  | vnone
deriving Repr, DecidableEq

/-- Python truthiness for the values of `PyVal` (`if d.get("episode"):` etc.). -/
def PyVal.truthy : PyVal → Bool
  | .vstr s => s ≠ ""
  | .vint n => n ≠ 0
  | .vnone  => false

/-- Rendering a `PyVal` inside `str.format` with a plain `{key}` placeholder. -/
def PyVal.fmt : PyVal → String
  | .vstr s => s
  | .vint n => toString n
  | .vnone  => "None"

/-- Python exceptions that the translated code can raise and catch. -/
inductive PyErr where
  | keyError (k : String)
  | reError (m : String)
  | valueError (m : String)
  | typeError (m : String)
deriving Repr, DecidableEq

/-- `str(e)` — the message stored into a rule outcome's `error` field. -/
def PyErr.toStr : PyErr → String
  | .keyError k => k
  | .reError m => m
  | .valueError m => m
  | .typeError m => m

/-- A Python dict with string keys, as an association list; `dictGet` returns the
first binding, so merging `base | override` is modelled by putting the override
entries in front. -/
abbrev PyDict := List (String × PyVal)

/-- Dictionary lookup (`d.get(k)` returning `None` when absent). -/
def dictGet (d : PyDict) (k : String) : Option PyVal :=
  (d.find? (fun p => p.1 = k)).map Prod.snd

/-- `d[k] = v` — Python dict update; the new binding shadows any previous one. -/
def dictSet (d : PyDict) (k : String) (v : PyVal) : PyDict :=
  (k, v) :: d.filter (fun p => p.1 ≠ k)

/-- `base | override` (PEP 584): keys of `override` win. -/
def dictMerge (base override : PyDict) : PyDict :=
  override ++ base

/-- `int(s)` on a string: an optional sign followed by at least one digit
(whitespace-free form); anything else raises `ValueError`. -/
def pyIntStr (s : String) : Except PyErr Int :=
  let digits (cs : List Char) : Option Nat :=
    if cs = [] then none
    else cs.foldl (fun acc c => match acc with
      | none => none
      | some n => if c.isDigit then some (n * 10 + (c.toNat - '0'.toNat)) else none) (some 0)
  match s.toList with
  | '-' :: rest =>
      match digits rest with
      | some n => .ok (-(n : Int))
      | none => .error (.valueError ("invalid literal for int(): " ++ s))
  | cs =>
      match digits cs with
      | some n => .ok (n : Int)
      | none => .error (.valueError ("invalid literal for int(): " ++ s))

/-- `int(v)` on a dictionary value: strings are parsed, ints pass through,
`None` raises `TypeError`. -/
def pyIntVal : Option PyVal → Except PyErr Int
  | some (.vstr s) => pyIntStr s
  | some (.vint n) => .ok n
  | some .vnone => .error (.typeError "int() argument must be a string or a number, not NoneType")
  | none => .error (.typeError "int() argument must be a string or a number, not NoneType")

/-- Python `str.zfill(width)`: left-pad with `'0'` up to `width`, keeping a
leading sign in front of the padding.  A `width ≤ 0` (in particular the `False`
produced by the walrus-operator slip in `regex_rename`) pads nothing. -/
def zfill (width : Int) (s : String) : String :=
  let w := width.toNat
  match s.toList with
  | '-' :: rest =>
      if rest.length + 1 < w then
        "-" ++ String.mk (List.replicate (w - 1 - rest.length) '0') ++ String.mk rest
      else s
  | cs =>
      if cs.length < w then String.mk (List.replicate (w - cs.length) '0') ++ s
      else s

/-! ## `str.replace` and the two sanitizers

`MediaOrganizer._sanitize_filename` deletes every character of `<>:"/\|?*`;
`Tools._sanitize_filename` first replaces the separators `/` and `\` by `-`
and then deletes `<>:"|?*`. -/

/-- Python `s.replace(a, to)` for a single-character needle, over `List Char`. -/
def pyReplaceChar (cs : List Char) (a : Char) (rep : List Char) : List Char :=
  cs.flatMap (fun c => if c = a then rep else [c])

/-- The nine characters of `invalid_chars = '<>:"/\\|?*'` in
`MediaOrganizer._sanitize_filename`. -/
def moInvalidChars : List Char := ['<', '>', ':', '"', '/', '\\', '|', '?', '*']

/-- `MediaOrganizer._sanitize_filename`: every character of `<>:"/\|?*` is
replaced by the empty string. -/
def sanitizeFilenameMO (cs : List Char) : List Char :=
  moInvalidChars.foldl (fun acc c => pyReplaceChar acc c []) cs

/-- The separator characters replaced by a dash in `Tools._sanitize_filename`. -/
def toolsSeparators : List Char := ['/', '\\']

/-- The characters stripped (replaced by the empty string) in
`Tools._sanitize_filename`. -/
def toolsStripChars : List Char := ['<', '>', ':', '"', '|', '?', '*']

/-- `Tools._sanitize_filename`: first every `/` and `\` becomes `-`, then every
character of `<>:"|?*` is removed (the two `replace_patterns` entries, applied
in order, one character at a time). -/
def sanitizeFilenameTools (cs : List Char) : List Char :=
  toolsStripChars.foldl (fun acc c => pyReplaceChar acc c [])
    (toolsSeparators.foldl (fun acc c => pyReplaceChar acc c ['-']) cs)

/-! ## Regular expressions and templates

A regex is modelled by its observable behaviour in the sources: searching a
string yields either a `re.error` (malformed pattern) or the first match, split
into the text before the match, the matched text, the named capture groups
(`m.groupdict()`, where a non-participating declared group carries no value),
and the text after the match. -/

/-- The first match of a pattern in a string, split around the match. -/
structure MatchSplit where
  pre : String
  matched : String
  groups : List (String × Option String)
  post : String
deriving Repr, DecidableEq

/-- A regex, by its search behaviour: `re.search(pattern, s)` either raises
`re.error` or returns the first match. -/
abbrev Regex := String → Except String (Option MatchSplit)

/-- `m.groupdict()` as a `PyDict`: a group that did not participate maps to
`None`. -/
def groupdictToDict (gs : List (String × Option String)) : PyDict :=
  gs.map (fun p => (p.1, match p.2 with | some s => PyVal.vstr s | none => PyVal.vnone))

/-- One piece of a `str.format` template: literal text, a `\x7bkey\x7d`
placeholder, or a zero-padded integer placeholder `\x7bkey:0Nd\x7d`. -/
inductive TPiece where
  | lit (s : String)
  | ref (k : String)
  | refPad (k : String) (w : Nat)
deriving Repr, DecidableEq

/-- A `str.format` template. -/
abbrev Template := List TPiece

/-- Formatting a value under a `:0Nd` spec: only integers are accepted. -/
def fmtPad (w : Nat) : PyVal → Except PyErr String
  | .vint n => .ok (zfill (w : Int) (toString n))
  | .vstr _ => .error (.valueError "Unknown format code d for object of type str")
  | .vnone => .error (.typeError "unsupported format string passed to NoneType.__format__")

/-- `template.format(**d)`: pieces are rendered left to right; a placeholder
whose key is absent from `d` raises `KeyError` at that point. -/
def renderTemplate (t : Template) (d : PyDict) : Except PyErr String :=
  t.foldlM (fun acc p =>
    match p with
    | .lit s => .ok (acc ++ s)
    | .ref k =>
        match dictGet d k with
        | some v => .ok (acc ++ v.fmt)
        | none => .error (.keyError k)
    | .refPad k w =>
        match dictGet d k with
        | some v => do
            let s ← fmtPad w v
            .ok (acc ++ s)
        | none => .error (.keyError k)) ""

/-- Source text of a template piece (for the rule identity serialization). -/
def TPiece.src : TPiece → String
  | .lit s => s
  | .ref k => "\x7b" ++ k ++ "\x7d"
  | .refPad k w => "\x7b" ++ k ++ ":0" ++ toString w ++ "d\x7d"

/-- Source text of a template. -/
def Template.src (t : Template) : String := String.join (t.map TPiece.src)

/-! ## Rules and per-file state -/

/-- A pattern dictionary from the scan configuration.  A regex-valued key keeps
both its source text (used in outcome records and the identity hash) and its
match behaviour.  `Option` marks key presence; the offsets model
`pattern.get(..., 0)` directly.  An empty-string value of a text key behaves in
the sources like an absent key (Python falsiness) and is modelled by `none`. -/
structure Rule where
  name : Option String := none
  regex : Option (String × Regex) := none
  ignore : Bool := false
  substitution : Option Template := none
  year : Option Int := none
  from_episode : Option Int := none
  to_episode : Option Int := none
  season_number : Option Int := none
  season_offset : Int := 0
  episode_offset : Int := 0
  season_padding : Option Int := none
  episode_padding : Option Int := none
  folder_regex : Option (String × Regex) := none

/-- The per-file mutable record built by `_get_media_info` and threaded through
preprocessing.  `stem` and `suffix` are the components of `file_info['path']`
touched by renaming; `parentName` is the basename of the parent directory (the
subject of `folder_regex`). -/
structure FileInfo where
  stem : String
  parentName : String := ""
  suffix : String := ""
  origStem : String := ""
  origSuffix : String := ""
  ignore : Bool := false
  title : Option String := none
  year : Option Int := none
  episode : Option Int := none
  destination_subfolder : Option String := none
  processing_patterns : List String := []
deriving Repr, DecidableEq

/-- The outcome record returned by `apply_pattern_rule` — exactly the four keys
`pattern`, `id`, `applied`, `error` built at its top. -/
structure RuleResult where
  pattern : String
  id : String
  applied : Bool
  error : Option String
deriving Repr, DecidableEq

/-- The global defaults `config['options']` consulted by `regex_rename`. -/
structure Options where
  episode_padding : Int := 0
  season_padding : Int := 0

/-- Python `a or b` over an optional string, with the empty string falsy. -/
def pyOrStr (a : Option String) (b : String) : String :=
  match a with
  | some s => if s ≠ "" then s else b
  | none => b

/-- `pattern.get('name') or pattern.get('regex') or 'unnamed'`. -/
def patternName (r : Rule) : String :=
  pyOrStr r.name (pyOrStr (r.regex.map Prod.fst) "unnamed")

/-- Models `hashlib.sha256(json.dumps(pattern, sort_keys=True).encode()).hexdigest()`:
the rule's content-derived identity.  The cryptographic digest is outside this
embedding's scope; the canonical key-sorted serialization that the digest is a
function of serves directly as the identity string. -/
def ruleId (r : Rule) : String :=
  let optI : Option Int → String := fun o => (o.map toString).getD "absent"
  let optS : Option String → String := fun o => o.getD "absent"
  String.intercalate "," [
    "episode_offset=" ++ toString r.episode_offset,
    "episode_padding=" ++ optI r.episode_padding,
    "folder_regex=" ++ optS (r.folder_regex.map Prod.fst),
    "from_episode=" ++ optI r.from_episode,
    "ignore=" ++ toString r.ignore,
    "name=" ++ optS r.name,
    "regex=" ++ optS (r.regex.map Prod.fst),
    "season_number=" ++ optI r.season_number,
    "season_offset=" ++ toString r.season_offset,
    "season_padding=" ++ optI r.season_padding,
    "substitution=" ++ optS (r.substitution.map Template.src),
    "to_episode=" ++ optI r.to_episode,
    "year=" ++ optI r.year]

/-! ## The rule engine (`Preparser`, with textually identical methods in
`MediaOrganizer`) -/

/-- `Preparser.in_episode_range`: a rule that declares no `from_episode` and no
`to_episode` is unconditionally eligible; otherwise the rule's own regex must
match the current stem, the match must expose an `episode` group, and the
episode number — `self.file_info.get('episode') or int(match.group('episode'))`
— must satisfy `from_episode <= e <= to_episode` with `from_episode` defaulting
to 1 and `to_episode` to `float('inf')`.  A malformed regex or a failing `int`
conversion raises (the caller's `try` catches it). -/
def inEpisodeRange (r : Rule) (fi : FileInfo) : Except PyErr Bool := do
  if r.from_episode = none ∧ r.to_episode = none then
    return true
  else
    match r.regex with
    | none => return false
    | some (_, rx) =>
        match rx fi.stem with
        | .error m => .error (.reError m)
        | .ok none => return false
        | .ok (some m) =>
            match m.groups.find? (fun g => g.1 = "episode") with
            | none => return false
            | some g => do
                let e ← (match fi.episode with
                  | some n => if n ≠ 0 then pure n else pyIntVal (g.2.map PyVal.vstr)
                  | none => pyIntVal (g.2.map PyVal.vstr))
                let fromEp := r.from_episode.getD 1
                match r.to_episode with
                | some toEp => return (decide (fromEp ≤ e) && decide (e ≤ toEp))
                | none => return decide (fromEp ≤ e)

/-- The `repl` closure inside `regex_rename`.  The padding lookups document the
walrus-operator slip in the sources: `if episode_padding :=
rename_rule.get("episode_padding") is None:` binds `episode_padding` to the
*boolean* `get(...) is None` (`:=` binds looser than `is`), so when the rule
declares a padding the effective width is `False` (an int 0), and the global
default is consulted exactly when the rule declares none.  The episode value is
offset and zero-padded only under a truthy `episode_offset`; the season is
overridden by `season_number`, offset under a truthy `season_offset`, and
zero-padded whenever truthy. -/
def replFn (opts : Options) (r : Rule) (folderInfo : PyDict) (m : MatchSplit) :
    Except PyErr String := do
  let d := dictMerge (groupdictToDict m.groups) folderInfo
  let episodePadding : Int := if r.episode_padding = none then opts.episode_padding else 0
  let seasonPadding : Int := if r.season_padding = none then opts.season_padding else 0
  let d ← (match dictGet d "episode" with
    | some v =>
        if v.truthy ∧ r.episode_offset ≠ 0 then do
          let n ← pyIntVal (some v)
          pure (dictSet d "episode" (.vstr (zfill episodePadding (toString (n + r.episode_offset)))))
        else pure d
    | none => pure d)
  let d := match r.season_number with
    | some n => dictSet d "season" (.vint n)
    | none => d
  let d ← (match dictGet d "season" with
    | some v =>
        if v.truthy then do
          let v2 ← (if r.season_offset ≠ 0 then do
              let n ← pyIntVal (some v)
              pure (PyVal.vint (n + r.season_offset))
            else pure v)
          pure (dictSet d "season" (.vstr (zfill seasonPadding v2.fmt)))
        else pure d
    | none => pure d)
  match r.substitution with
  | some t => renderTemplate t d
  | none => .error (.typeError "NoneType object has no attribute format")

/-- `re.sub(regex, repl, s)`: replace the first match and continue in the text
after it.  Recursion is bounded by explicit fuel (`s.length + 1` steps suffice
for any match that consumes input). -/
def reSub (rx : Regex) (repl : MatchSplit → Except PyErr String) :
    String → Nat → Except PyErr String
  | s, 0 => .ok s
  | s, fuel + 1 =>
      match rx s with
      | .error m => .error (.reError m)
      | .ok none => .ok s
      | .ok (some m) => do
          let r ← repl m
          let rest ← reSub rx repl m.post fuel
          pure (m.pre ++ r ++ rest)

/-- `Preparser.regex_rename` (textually identical to
`MediaOrganizer.regex_rename`): search the rule's regex against the stem; on no
match return `False`; otherwise collect `folder_regex` captures from the parent
directory name, substitute every match through `repl`, and on success replace
the path by `parent/(new_stem + suffix)`.  The internal `try` catches `re.error`
and `KeyError` from the substitution (returning `False` with the stem
unchanged); any other exception propagates to `apply_pattern_rule`, as do
errors from the two searches performed outside the `try`. -/
def regexRename (opts : Options) (r : Rule) (fi : FileInfo) :
    Except PyErr (FileInfo × Bool) :=
  match r.regex with
  | none => .error (.typeError "first argument must be string or compiled pattern")
  | some (_, rx) =>
      match rx fi.stem with
      | .error msg => .error (.reError msg)
      | .ok none => .ok (fi, false)
      | .ok (some _) =>
          match (match r.folder_regex with
            | none => Except.ok ([] : PyDict)
            | some (_, frx) =>
                match frx fi.parentName with
                | .error msg => Except.error (PyErr.reError msg)
                | .ok none => Except.ok ([] : PyDict)
                | .ok (some fm) => Except.ok (groupdictToDict fm.groups)) with
          | .error e => .error e
          | .ok folderInfo =>
              match reSub rx (replFn opts r folderInfo) fi.stem (fi.stem.length + 1) with
              | .error (.reError _) => .ok (fi, false)
              | .error (.keyError _) => .ok (fi, false)
              | .error e => .error e
              | .ok newStem => .ok ({ fi with stem := newStem }, true)

/-- Python truthiness of `pattern.get('year')`. -/
def yearTruthy : Option Int → Bool
  | some n => n ≠ 0
  | none => false

/-- Sequencing of the actions in `apply_pattern_rule`'s `try` block: a raised
exception stops the remaining actions, keeping the file info and the
`result['applied']` value as they stood at the raise point. -/
def actSeq (t : FileInfo × Bool × Option PyErr)
    (k : FileInfo → Bool → FileInfo × Bool × Option PyErr) :
    FileInfo × Bool × Option PyErr :=
  match t with
  | (fi, applied, some e) => (fi, applied, some e)
  | (fi, applied, none) => k fi applied

/-- `if pattern.get('regex') and pattern.get('ignore'):` — on a stem match,
set `file_info['ignore'] = True` and `result['applied'] = True`. -/
def actIgnore (r : Rule) (fi : FileInfo) (applied : Bool) :
    FileInfo × Bool × Option PyErr :=
  match r.regex with
  | some (_, rx) =>
      if r.ignore then
        match rx fi.stem with
        | .error m => (fi, applied, some (.reError m))
        | .ok (some _) => ({ fi with ignore := true }, true, none)
        | .ok none => (fi, applied, none)
      else (fi, applied, none)
  | none => (fi, applied, none)

/-- `if pattern.get('regex') and pattern.get('substitution'):
result['applied'] = self.regex_rename(...)` — the returned boolean overwrites
`applied` unconditionally; an exception keeps the previous value. -/
def actSubst (opts : Options) (r : Rule) (fi : FileInfo) (applied : Bool) :
    FileInfo × Bool × Option PyErr :=
  if r.regex.isSome && r.substitution.isSome then
    match regexRename opts r fi with
    | .error e => (fi, applied, some e)
    | .ok (fi2, b) => (fi2, b, none)
  else (fi, applied, none)

/-- `if pattern.get('regex') and pattern.get('year'):` — on a stem match,
overwrite `file_info['year']` with the rule's (truthy) year. -/
def actYear (r : Rule) (fi : FileInfo) (applied : Bool) :
    FileInfo × Bool × Option PyErr :=
  match r.regex with
  | some (_, rx) =>
      if yearTruthy r.year then
        match rx fi.stem with
        | .error m => (fi, applied, some (.reError m))
        | .ok (some _) => ({ fi with year := r.year }, true, none)
        | .ok none => (fi, applied, none)
      else (fi, applied, none)
  | none => (fi, applied, none)

/-- The action sequence in the `try` block of `apply_pattern_rule` (both
versions), after the range gate: the `ignore` action, the `substitution`
action, then the `year` action, with `result['applied']` initially `False`
and threaded through. -/
def applyActions (opts : Options) (r : Rule) (fi : FileInfo) :
    FileInfo × Bool × Option PyErr :=
  actSeq (actIgnore r fi false) (fun fi1 a1 =>
    actSeq (actSubst opts r fi1 a1) (fun fi2 a2 => actYear r fi2 a2))

/-- The `try` block of `Preparser.apply_pattern_rule`: the `in_episode_range`
gate (an ineligible rule returns the untouched default record immediately),
then the three actions.  `MediaOrganizer.apply_pattern_rule` is this body
without the gate, i.e. `applyActions`. -/
def applyPatternRuleBody (opts : Options) (r : Rule) (fi : FileInfo) :
    FileInfo × Bool × Option PyErr :=
  match inEpisodeRange r fi with
  | .error e => (fi, false, some e)
  | .ok false => (fi, false, none)
  | .ok true => applyActions opts r fi

/-- `Preparser.apply_pattern_rule`: build the outcome record
`\x7bpattern, id, applied, error\x7d`, run the gate and the actions inside
`try`, and store `str(e)` of any raised exception in the record's `error`
field (`except re.error` / `except Exception` both do exactly that). -/
def applyPatternRule (opts : Options) (r : Rule) (fi : FileInfo) :
    FileInfo × RuleResult :=
  match applyPatternRuleBody opts r fi with
  | (fi', applied, exc) =>
      (fi', { pattern := patternName r, id := ruleId r,
              applied := applied, error := exc.map PyErr.toStr })

/-! ## Per-file processing records and the preprocessing loop -/

/-- A processing outcome `\x7b'outcome': bool, 'error': optional str\x7d`. -/
structure Outcome where
  outcome : Bool
  error : Option String
deriving Repr, DecidableEq

/-- The per-file record `file_processing` built by `scan_and_organize`. -/
structure FileProcessing where
  name : String
  preprocessing_outcome : List RuleResult
  processing_outcome : Outcome
  skipped : Bool
deriving Repr, DecidableEq

/-- The fresh `file_processing` record created for each discovered file. -/
def initFileProcessing (name : String) : FileProcessing :=
  { name := name, preprocessing_outcome := [],
    processing_outcome := { outcome := false, error := some "Not processed" },
    skipped := false }

/-- `check_skip` (both versions): when the file is flagged ignore, mark the
record skipped with a successful no-op outcome.  (The `MediaOrganizer` version
additionally increments a counter, which does not affect the record.) -/
def checkSkip (fi : FileInfo) (fp : FileProcessing) : FileProcessing :=
  if fi.ignore then
    { fp with skipped := true,
              processing_outcome :=
                { outcome := true, error := some "File ignorato durante pre-processing" } }
  else fp

/-- Python truthiness of `pattern_result.get('error')` (an empty error string is
falsy). -/
def errTruthy : Option String → Bool
  | some s => s ≠ ""
  | none => false

/-- `self.scan_config.get('patterns', \x7b\x7d).get(pattern_name, \x7b\x7d)`:
look a pattern group up by name, defaulting to the empty group. -/
def patternsLookup (patterns : List (String × List Rule)) (nm : String) : List Rule :=
  ((patterns.find? (fun p => p.1 = nm)).map Prod.snd).getD []

/-- The inner rule loop of `preparse` / `pre_process_file` over one pattern
group: apply each rule in order, append its outcome record when it was applied
or carries a truthy error, re-run `check_skip`, and `break` out of the group as
soon as `file_info['ignore']` is true.  The third component is the evaluation
trace: the `pattern` names of the rules whose `apply_pattern_rule` was invoked,
in order. -/
def preparseRules (opts : Options) (rules : List Rule) (fi : FileInfo)
    (fp : FileProcessing) : FileInfo × FileProcessing × List String :=
  match rules with
  | [] => (fi, fp, [])
  | r :: rest =>
      let (fi1, res) := applyPatternRule opts r fi
      let fp1 := if res.applied || errTruthy res.error then
          { fp with preprocessing_outcome := fp.preprocessing_outcome ++ [res] }
        else fp
      let fp2 := checkSkip fi1 fp1
      if fi1.ignore then (fi1, fp2, [res.pattern])
      else
        let (fi3, fp3, tr) := preparseRules opts rest fi1 fp2
        (fi3, fp3, res.pattern :: tr)

/-- The outer loop of `preparse` / `pre_process_file` over the file's pattern
groups: look each named group up, run `check_skip` once before the group, then
the inner rule loop.  Note the `break` in the sources only leaves the inner
loop: the iteration over the remaining group names continues. -/
def preparseGroups (opts : Options) (patterns : List (String × List Rule))
    (names : List String) (fi : FileInfo) (fp : FileProcessing) :
    FileInfo × FileProcessing × List String :=
  match names with
  | [] => (fi, fp, [])
  | nm :: rest =>
      let fp0 := checkSkip fi fp
      let (fi1, fp1, tr1) := preparseRules opts (patternsLookup patterns nm) fi fp0
      let (fi2, fp2, tr2) := preparseGroups opts patterns rest fi1 fp1
      (fi2, fp2, tr1 ++ tr2)

/-- `Preparser.preparse` / `MediaOrganizer.pre_process_file`: run the pattern
groups listed in `file_info['processing_patterns']` over the file. -/
def preparse (opts : Options) (patterns : List (String × List Rule))
    (fi : FileInfo) (fp : FileProcessing) : FileInfo × FileProcessing × List String :=
  preparseGroups opts patterns fi.processing_patterns fi fp

/-! ## Concrete regexes used by the specification's scenarios -/

/-- The maximal digit run at the head of a character list, and the rest. -/
def digitRun : List Char → List Char × List Char
  | [] => ([], [])
  | c :: cs =>
      if c.isDigit then
        let (d, r) := digitRun cs
        (c :: d, r)
      else ([], c :: cs)

/-- A match of `S(?P<season>\d+)E(?P<episode>\d+)` anchored at the head of the
list: `(season digits, episode digits, rest)`.  Because `\d` cannot match `E`,
the greedy `\d+` is forced to take each entire digit run. -/
def sxxExxHere : List Char → Option (List Char × List Char × List Char)
  | 'S' :: cs =>
      match digitRun cs with
      | (d1, 'E' :: rest) =>
          if d1 = [] then none
          else
            match digitRun rest with
            | (d2, post) => if d2 = [] then none else some (d1, d2, post)
      | _ => none
  | _ => none

/-- First match of `S(?P<season>\d+)E(?P<episode>\d+)` anywhere in the list:
`(pre, season digits, episode digits, post)`. -/
def sxxExxScan : List Char → Option (List Char × List Char × List Char × List Char)
  | [] => none
  | c :: cs =>
      match sxxExxHere (c :: cs) with
      | some (d1, d2, post) => some ([], d1, d2, post)
      | none =>
          match sxxExxScan cs with
          | some (pre, d1, d2, post) => some (c :: pre, d1, d2, post)
          | none => none

/-- The Scenario A rule regex `S(?P<season>\d+)E(?P<episode>\d+)` as a `Regex`. -/
def sxxExxRegex : Regex := fun s =>
  match sxxExxScan s.toList with
  | none => .ok none
  | some (pre, d1, d2, post) =>
      .ok (some { pre := String.mk pre,
                  matched := "S" ++ String.mk d1 ++ "E" ++ String.mk d2,
                  groups := [("season", some (String.mk d1)),
                             ("episode", some (String.mk d2))],
                  post := String.mk post })

/-! ## Title cleaning (`_clean_title`, `guess_correct_title`) -/

/-- Split a character list into maximal non-whitespace words (Python
`s.split()` with no separator argument). -/
def wordsAux : List Char → List Char → List (List Char)
  | [], acc => if acc = [] then [] else [acc.reverse]
  | c :: cs, acc =>
      if c.isWhitespace then
        if acc = [] then wordsAux cs [] else acc.reverse :: wordsAux cs []
      else wordsAux cs (c :: acc)

/-- `' '.join(title.split())` followed by `.strip()` (the strip is a no-op on
the joined words). -/
def collapseSpaces (cs : List Char) : String :=
  String.intercalate " " ((wordsAux cs []).map String.mk)

/-- `MediaOrganizer._clean_title` / `Tools._clean_title`: dots and underscores
become spaces, then whitespace runs collapse to single spaces and the ends are
stripped. -/
def cleanTitle (s : String) : String :=
  collapseSpaces (pyReplaceChar (pyReplaceChar s.toList '.' [' ']) '_' [' '])

/-- Drop characters up to and including the first occurrence of `target`,
returning the rest, or `none` when `target` does not occur. -/
def dropThrough (target : Char) : List Char → Option (List Char)
  | [] => none
  | c :: cs => if c = target then some cs else dropThrough target cs

/-- `re.sub(r'\[.*?]|\(.*?\)', '', title)` on fuel: scanning left to right, an
opening bracket with a matching closer further on is removed together with
everything up to that closer; an opening bracket with no closer fails to
match and is kept.  One unit of fuel per position suffices, since every step
consumes at least one character. -/
def removeBracketsF : Nat → List Char → List Char
  | 0, cs => cs
  | _ + 1, [] => []
  | fuel + 1, c :: cs =>
      if c = '[' then
        match dropThrough ']' cs with
        | some rest => removeBracketsF fuel rest
        | none => c :: removeBracketsF fuel cs
      else if c = '(' then
        match dropThrough ')' cs with
        | some rest => removeBracketsF fuel rest
        | none => c :: removeBracketsF fuel cs
      else c :: removeBracketsF fuel cs

/-- `re.sub(r'\[.*?]|\(.*?\)', '', title)`. -/
def removeBrackets (cs : List Char) : List Char := removeBracketsF cs.length cs

/-- A word character for the purposes of `\b` (`[A-Za-z0-9_]`). -/
def isWordChar (c : Char) : Bool := c.isAlphanum || c = '_'

/-- Case-insensitive match of a word at the head of a list, returning the rest
on success. -/
def matchWordCI : List Char → List Char → Option (List Char)
  | [], cs => some cs
  | _ :: _, [] => none
  | w :: ws, c :: cs => if w.toLower = c.toLower then matchWordCI ws cs else none

/-- `re.sub(r'\b' + word + r'\b', '', title, flags=IGNORECASE)`: delete every
non-overlapping occurrence of the word that sits between non-word characters
(or the string's ends).  `prev` is the original character preceding the scan
position; the fuel bounds the recursion (one unit per position suffices for a
non-empty word). -/
def removeWordScan (w : List Char) : Nat → Option Char → List Char → List Char
  | 0, _, cs => cs
  | _ + 1, _, [] => []
  | fuel + 1, prev, c :: cs =>
      let boundaryOk : Bool := match prev with
        | some p => ! isWordChar p
        | none => true
      let noMatch := c :: removeWordScan w fuel (some c) cs
      if boundaryOk then
        match matchWordCI w (c :: cs) with
        | some rest =>
            if rest.head?.all (fun d => ! isWordChar d) then
              removeWordScan w fuel (w.getLast?.orElse (fun _ => prev)) rest
            else noMatch
        | none => noMatch
      else noMatch

/-- The scene-release token list `common_words` of `guess_correct_title`. -/
def commonWords : List String :=
  ["HD", "1080p", "720p", "BluRay", "WEBRip", "x264", "YIFY", "DVDRip"]

/-- `MediaOrganizer.guess_correct_title` / `Tools.guess_correct_title`: strip
bracketed/parenthesised blocks, delete each known scene-release token at word
boundaries (case-insensitively), and collapse whitespace.  Dots and
underscores are *not* normalised here. -/
def guessCorrectTitle (title : String) : String :=
  let cs := removeBrackets title.toList
  let cs := commonWords.foldl
    (fun acc w => removeWordScan w.toList (acc.length + 1) none acc) cs
  collapseSpaces cs

/-! ## Metadata, configuration and path generation -/

/-- A movie candidate returned by the catalog (the fields the pipeline reads);
`release_date` models `movie_info.get('release_date', '')`. -/
structure MovieInfo where
  title : String
  release_date : String := ""
deriving Repr, DecidableEq

/-- A TV-show candidate returned by the catalog. -/
structure TvInfo where
  id : Int
  name : String
deriving Repr, DecidableEq

/-- Episode details returned by the catalog; `name` models
`episode_info.get('name', 'Episode')`. -/
structure EpisodeInfo where
  name : Option String := none
deriving Repr, DecidableEq

/-- A regex compiled successfully at startup (`re.compile` in `__init__`):
total first-match search. -/
abbrev CRegex := String → Option MatchSplit

/-- The `config['naming']` section. -/
structure NamingCfg where
  movie_pattern : Option Template := none
  tv_show_pattern : Template := []
  episode_pattern : Option Template := none

/-- The `config['paths']` section fields read by path generation. -/
structure PathsCfg where
  destination_folder : String := ""
  movie_folder : String := ""
  tv_show_folder : String := ""
deriving Repr, DecidableEq

/-- The organizer's state as path generation sees it: the configuration
sections it reads, plus state that belongs to other concerns (running
statistics, accumulated ledger rows) and must not influence the generated
paths. -/
structure OrganizerState where
  naming : NamingCfg
  paths : PathsCfg
  options : Options := {}
  videoExtensions : List String := []
  statsSkipped : Int := 0
  ledgerRows : List FileProcessing := []

/-- `os.path.join` of two POSIX segments. -/
def osJoin2 (a b : String) : String :=
  if b.toList.head? = some '/' then b
  else if a = "" then b
  else if a.toList.getLast? = some '/' then a ++ b
  else a ++ "/" ++ b

/-- `os.path.join(start, parts...)`. -/
def osJoin (start : String) (parts : List String) : String :=
  parts.foldl osJoin2 start

/-- `MediaOrganizer._sanitize_filename` on a `String`. -/
def sanitizeMOStr (s : String) : String := String.mk (sanitizeFilenameMO s.toList)

/-- `re.split(r'[\\/]', s)`: split at every separator, keeping empty parts. -/
def splitSeps : List Char → List (List Char)
  | [] => [[]]
  | c :: cs =>
      if c = '/' ∨ c = '\\' then [] :: splitSeps cs
      else
        match splitSeps cs with
        | p :: ps => (c :: p) :: ps
        | [] => [[c]]

/-- `Path(*parts)`: empty segments contribute nothing (`Path('a','','b')` is
`a/b`); with no non-empty segment the path is `.`. -/
def pathOfParts (parts : List String) : String :=
  let nonEmpty := parts.filter (fun p => p ≠ "")
  if nonEmpty = [] then "." else String.intercalate "/" nonEmpty

/-- `MediaOrganizer._generate_movie_path`: render the movie naming template
with the candidate's title and the first four characters of its release date,
sanitize the folder name, and join destination root / subfolder / movie folder
/ folder name / original file name.  A missing naming pattern raises
`ValueError`; a `None` destination subfolder makes `os.path.join` raise
`TypeError`. -/
def generateMoviePath (st : OrganizerState) (mi : MovieInfo) (fi : FileInfo) :
    Except PyErr String := do
  match st.naming.movie_pattern with
  | none => .error (.valueError "Nessun pattern di naming per film definito nella configurazione.")
  | some pat => do
      let folderName ← renderTemplate pat
        [("title", .vstr mi.title), ("year", .vstr (mi.release_date.take 4))]
      let folderName := sanitizeMOStr folderName
      match fi.destination_subfolder with
      | none => .error (.typeError "join() argument must be str or bytes, not NoneType")
      | some sub =>
          let destFolder := osJoin st.paths.destination_folder
            [sub, st.paths.movie_folder, folderName]
          .ok (osJoin destFolder [fi.stem ++ fi.suffix])

/-- `MediaOrganizer._generate_tv_path`: render the show template with the
show's name and the season; when the rendered folder contains a path
separator, split it at separators and sanitize each segment (nested layout);
render the episode template (if configured) with title/season/episode/episode
title, sanitize it and append the original extension, otherwise keep the
current file name verbatim; then join destination root / subfolder / tv folder
/ show folder / episode name. -/
def generateTvPath (st : OrganizerState) (tv : TvInfo) (episodeInfo : Option EpisodeInfo)
    (season episode : Int) (fi : FileInfo) : Except PyErr String := do
  let showFolder ← renderTemplate st.naming.tv_show_pattern
    [("title", .vstr tv.name), ("season", .vint season)]
  let showFolder :=
    if showFolder.toList.contains '/' || showFolder.toList.contains '\\' then
      pathOfParts ((splitSeps showFolder.toList).map (fun p => sanitizeMOStr (String.mk p)))
    else showFolder
  let episodeName ← (match st.naming.episode_pattern with
    | some ep => do
        let n ← renderTemplate ep
          [("title", .vstr tv.name), ("season", .vint season), ("episode", .vint episode),
           ("episode_title", .vstr (match episodeInfo with
             | some e => e.name.getD "Episode"
             | none => "Episode"))]
        pure (sanitizeMOStr n ++ fi.origSuffix)
    | none => pure (fi.stem ++ fi.suffix))
  match fi.destination_subfolder with
  | none => .error (.typeError "join() argument must be str or bytes, not NoneType")
  | some sub =>
      let destFolder := osJoin st.paths.destination_folder
        [sub, st.paths.tv_show_folder, showFolder]
      .ok (osJoin destFolder [episodeName])

/-! ## Movie and TV processing (`process_movie`, `process_tv_show`)

The external catalog and the filesystem placement are collaborators; they are
modelled as oracles, and each processing function additionally returns the
ordered trace of its observable external calls. -/

/-- Observable external calls made by the per-file pipeline. -/
inductive Ev where
  | movieQuery (q : String) (year : Option Int)
  | tvQuery (q : String) (year : Option Int)
  | episodeQuery (showId season episode : Int)
  | place (dest : String)
  | ruleEval (pat : String)
deriving Repr, DecidableEq

/-- The external collaborators consumed by the pipeline: the three TMDB
operations and the outcome of `_link_or_copy_file` at a destination. -/
structure PipeEnv where
  searchMovie : String → Option Int → Option MovieInfo
  searchTvShow : String → Option Int → Option TvInfo
  getEpisodeDetails : Int → Int → Int → Option EpisodeInfo
  linkOutcome : String → Outcome

/-- `MediaOrganizer._parse_movie_filename`: on a match of the compiled movie
regex, store the cleaned `title` group and `int(info['year'])` into the file
info (a missing group raises `KeyError`, a non-participating or non-numeric
`year` raises).  The subsequent `if 'year' not in info or not info['year']`
reset in the sources is unreachable — a falsy `year` group value has already
raised in `int()` — and is therefore not modelled. -/
def parseMovieFilename (movieRx : CRegex) (fi : FileInfo) : Except PyErr FileInfo :=
  match movieRx fi.stem with
  | none => .ok fi
  | some m =>
      match m.groups.find? (fun g => g.1 = "title") with
      | none => .error (.keyError "title")
      | some tg =>
          match tg.2 with
          | none => .error (.typeError "NoneType object has no attribute replace")
          | some rawTitle =>
              let fi1 := { fi with title := some (cleanTitle rawTitle) }
              match m.groups.find? (fun g => g.1 = "year") with
              | none => .error (.keyError "year")
              | some yg => do
                  let y ← pyIntVal (yg.2.map PyVal.vstr)
                  .ok { fi1 with year := some y }

/-- `MediaOrganizer._parse_tv_filename`: on a match of the compiled tv regex,
return the cleaned title and the integer season and episode; no match returns
`None`. -/
def parseTvFilename (tvRx : CRegex) (s : String) :
    Except PyErr (Option (String × Int × Int)) :=
  match tvRx s with
  | none => .ok none
  | some m =>
      match m.groups.find? (fun g => g.1 = "title"),
            m.groups.find? (fun g => g.1 = "season"),
            m.groups.find? (fun g => g.1 = "episode") with
      | some tg, some sg, some eg =>
          match tg.2 with
          | none => .error (.typeError "NoneType object has no attribute replace")
          | some rawTitle => do
              let s ← pyIntVal (sg.2.map PyVal.vstr)
              let e ← pyIntVal (eg.2.map PyVal.vstr)
              .ok (some (cleanTitle rawTitle, s, e))
      | _, _, _ => .error (.keyError "title")

/-- Python truthiness of an optional string (`file_info.get('title')`). -/
def strTruthy : Option String → Bool
  | some s => s ≠ ""
  | none => false

/-- `MediaOrganizer.process_movie`: parse the (possibly rewritten) stem; a
falsy title or year is a terminal parse failure.  Look the movie up once with
the parsed title and year; on a miss, retry exactly once with
`guess_correct_title(original_path.stem)` and no year; a second miss is a
terminal not-found failure with no placement.  On a hit, generate the
destination path and place the file. -/
def processMovie (env : PipeEnv) (movieRx : CRegex) (st : OrganizerState)
    (fi : FileInfo) : Except PyErr (Outcome × List Ev) := do
  let fi ← parseMovieFilename movieRx fi
  if ¬ (strTruthy fi.title ∧ yearTruthy fi.year) then
    pure ({ outcome := false, error := some "Parsing fallito" }, [])
  else
    let t := fi.title.getD ""
    match env.searchMovie t fi.year with
    | some mi => do
        let dest ← generateMoviePath st mi fi
        pure (env.linkOutcome dest, [.movieQuery t fi.year, .place dest])
    | none =>
        let retryQ := guessCorrectTitle fi.origStem
        match env.searchMovie retryQ none with
        | some mi => do
            let dest ← generateMoviePath st mi fi
            pure (env.linkOutcome dest,
                  [.movieQuery t fi.year, .movieQuery retryQ none, .place dest])
        | none =>
            pure ({ outcome := false,
                    error := some ("Media non disponibile su TMDB [" ++ fi.stem ++ fi.suffix ++ "]") },
                  [.movieQuery t fi.year, .movieQuery retryQ none])

/-- The `first_air_date_year` parameter `search_tv_show` sends: the file's
year when present and truthy. -/
def tvYearParam (fi : FileInfo) : Option Int :=
  match fi.year with
  | some y => if y ≠ 0 then some y else none
  | none => none

/-- `MediaOrganizer.process_tv_show`: parse the stem; no parse is a terminal
parse failure.  Search the show once — `search_tv_show` sends the file's year
as `first_air_date_year` only when truthy — and never retry; a miss is a
terminal not-found failure.  On a hit, fetch the episode details, generate the
destination path and place the file. -/
def processTvShow (env : PipeEnv) (tvRx : CRegex) (st : OrganizerState)
    (fi : FileInfo) : Except PyErr (Outcome × List Ev) := do
  let parsed ← parseTvFilename tvRx fi.stem
  match parsed with
  | none => pure ({ outcome := false, error := some "Parsing fallito" }, [])
  | some (title, season, episode) =>
      let yearParam := tvYearParam fi
      match env.searchTvShow title yearParam with
      | none =>
          pure ({ outcome := false,
                  error := some ("Media non disponibile su TMDB [" ++ title ++ "]") },
                [.tvQuery title yearParam])
      | some tv => do
          let epInfo := env.getEpisodeDetails tv.id season episode
          let dest ← generateTvPath st tv epInfo season episode fi
          pure (env.linkOutcome dest,
                [.tvQuery title yearParam, .episodeQuery tv.id season episode, .place dest])

/-! ## The scan loop (`scan_and_organize`, `skip_this_file`, `store_info`) -/

/-- A file discovered by `rglob`, with the filesystem facts the pipeline can
observe.  `size` and `mtime` are carried to express the specification's
ledger cross-check; no code path under `src/` reads them. -/
structure FileSpec where
  path : String
  isFile : Bool := true
  suffix : String := ""
  size : Int := 0
  mtime : Int := 0
deriving Repr, DecidableEq

/-- `MediaOrganizer.skip_this_file`: skip when the file's full path string is
in the list of previously processed files, when it is not a regular file, or
when its lower-cased extension is not in the configured video allow-list.  No
other attribute of the file — in particular neither its size nor its
modification time — is consulted. -/
def strLower (s : String) : String := String.mk (s.toList.map Char.toLower)

def skipThisFile (videoExtensions : List String) (f : FileSpec)
    (alreadyProcessedFiles : List String) : Bool :=
  if alreadyProcessedFiles.contains f.path then true
  else if ¬ f.isFile then true
  else if ¬ videoExtensions.contains (strLower f.suffix) then true
  else false

/-- The scan-relevant mutable state: the in-memory `stats['files']` records of
the current run and the database (ledger) contents. -/
structure ScanState where
  statsFiles : List FileProcessing := []
  ledger : List FileProcessing := []
deriving Repr, DecidableEq

/-- One iteration of the per-file loop in `scan_and_organize`: a file that
`skip_this_file` accepts is `continue`d past — nothing is evaluated, called,
or appended for it; otherwise the per-file body (classification,
preprocessing, TMDB processing — which performs no ledger access in the
sources and is abstracted as `perFile`) runs and its record is appended to the
in-memory `stats['files']`.  The ledger is not written in either branch. -/
def scanStep (videoExtensions : List String) (already : List String)
    (perFile : FileSpec → FileProcessing × List Ev) (st : ScanState)
    (f : FileSpec) : ScanState × List Ev :=
  if skipThisFile videoExtensions f already then (st, [])
  else
    let (fp, evs) := perFile f
    ({ st with statsFiles := st.statsFiles ++ [fp] }, evs)

/-- The per-file loop of `scan_and_organize` over the discovered files, in
traversal order. -/
def scanFiles (videoExtensions : List String) (already : List String)
    (perFile : FileSpec → FileProcessing × List Ev) :
    List FileSpec → ScanState → ScanState × List Ev
  | [], st => (st, [])
  | f :: rest, st =>
      let (st1, ev1) := scanStep videoExtensions already perFile st f
      let (st2, ev2) := scanFiles videoExtensions already perFile rest st1
      (st2, ev1 ++ ev2)

/-- `MediaOrganizer.store_info` / `store_in_db`: write every record accumulated
in `stats['files']` to the database, one insert per record. -/
def storeInfo (st : ScanState) : ScanState :=
  { st with ledger := st.ledger ++ st.statsFiles }

/-- The per-file core of `MediaOrganizer.scan_and_organize`: iterate over the
discovered files, then — only after the whole loop has finished — persist the
accumulated records in a single batch via `store_info`. -/
def scanAndOrganize (videoExtensions : List String) (already : List String)
    (perFile : FileSpec → FileProcessing × List Ev) (files : List FileSpec)
    (st : ScanState) : ScanState × List Ev :=
  let (st1, evs) := scanFiles videoExtensions already perFile files st
  (storeInfo st1, evs)

/-- Modelled from the spec: a `LedgerEntry` of §3 — the ledger accessor
`load_processed_files` that produces the prior-success set is not among the
sources under `src/` (only its consumer `skip_this_file` is), so the entry
shape is taken from the specification's words: identity key = source-relative
directory + filename, with recorded size and last-modified timestamp. -/
structure LedgerEntry where
  relDir : String
  filename : String
  size : Int
  mtime : Int
deriving Repr, DecidableEq

/-- Modelled from the spec: the idempotent-skip identity match of §4.4 — the
file's relative directory and filename, cross-checked against the recorded
size and modification time. -/
def specIdentityMatch (relDir filename : String) (size mtime : Int)
    (e : LedgerEntry) : Bool :=
  decide (e.relDir = relDir) && decide (e.filename = filename) &&
    decide (e.size = size) && decide (e.mtime = mtime)

/-! ## Helper lemmas on `str.replace` chains -/

theorem pyReplaceChar_delete (c : Char) :
    ∀ cs : List Char, pyReplaceChar cs c [] = cs.filter (fun x => x != c) := by
  intro cs
  induction cs with
  | nil => rfl
  | cons x cs ih =>
      simp only [pyReplaceChar, List.flatMap_cons] at ih ⊢
      by_cases h : x = c
      · subst h
        simp [ih]
      · simp [h, ih, bne]

theorem pyReplaceChar_subst (c d : Char) :
    ∀ cs : List Char, pyReplaceChar cs c [d] = cs.map (fun x => if x = c then d else x) := by
  intro cs
  induction cs with
  | nil => rfl
  | cons x cs ih =>
      simp only [pyReplaceChar, List.flatMap_cons] at ih ⊢
      by_cases h : x = c
      · subst h
        simp [ih]
      · simp [h, ih]

/-! ## Helper lemmas on the rule engine -/

theorem regexRename_ok_ignore (opts : Options) (r : Rule) (fi : FileInfo) :
    ∀ out, regexRename opts r fi = .ok out → out.1.ignore = fi.ignore := by
  intro out h
  unfold regexRename at h
  repeat' split at h
  all_goals cases h
  all_goals rfl

theorem actSeq_ignore (t : FileInfo × Bool × Option PyErr)
    (k : FileInfo → Bool → FileInfo × Bool × Option PyErr)
    (ht : t.1.ignore = true)
    (hk : ∀ fi a, fi.ignore = true → (k fi a).1.ignore = true) :
    (actSeq t k).1.ignore = true := by
  obtain ⟨fi, a, exc⟩ := t
  cases exc with
  | none => exact hk fi a ht
  | some e => exact ht

theorem actIgnore_mono (r : Rule) (fi : FileInfo) (a : Bool)
    (h : fi.ignore = true) : (actIgnore r fi a).1.ignore = true := by
  unfold actIgnore
  repeat' split
  all_goals (first | rfl | exact h)

theorem actSubst_mono (opts : Options) (r : Rule) (fi : FileInfo) (a : Bool)
    (h : fi.ignore = true) : (actSubst opts r fi a).1.ignore = true := by
  unfold actSubst
  repeat' split
  all_goals
    (first
      | exact h
      | (rename_i heq; exact (regexRename_ok_ignore _ _ _ _ heq).trans h))

theorem actYear_mono (r : Rule) (fi : FileInfo) (a : Bool)
    (h : fi.ignore = true) : (actYear r fi a).1.ignore = true := by
  unfold actYear
  repeat' split
  all_goals (first | rfl | exact h)

theorem applyActions_ignore_mono (opts : Options) (r : Rule) (fi : FileInfo)
    (h : fi.ignore = true) : (applyActions opts r fi).1.ignore = true := by
  unfold applyActions
  refine actSeq_ignore _ _ (actIgnore_mono r fi false h) ?_
  intro fi1 a1 h1
  refine actSeq_ignore _ _ (actSubst_mono opts r fi1 a1 h1) ?_
  intro fi2 a2 h2
  exact actYear_mono r fi2 a2 h2

theorem applyPatternRule_ignore_mono (opts : Options) (r : Rule) (fi : FileInfo)
    (h : fi.ignore = true) : (applyPatternRule opts r fi).1.ignore = true := by
  unfold applyPatternRule applyPatternRuleBody
  repeat' split
  all_goals
    (rename_i heq
     split at heq)
  all_goals
    (first
      | (cases heq; exact h)
      | (have hmono2 := applyActions_ignore_mono opts r fi h
         rw [heq] at hmono2
         exact hmono2))

theorem applyPatternRule_shape (opts : Options) (r : Rule) (fi : FileInfo) :
    applyPatternRule opts r fi =
      ((applyPatternRuleBody opts r fi).1,
       { pattern := patternName r, id := ruleId r,
         applied := (applyPatternRuleBody opts r fi).2.1,
         error := ((applyPatternRuleBody opts r fi).2.2).map PyErr.toStr }) := by
  unfold applyPatternRule
  rcases h : applyPatternRuleBody opts r fi with ⟨fi', a, e⟩
  simp [h]

theorem preparseRules_break (opts : Options) (r : Rule) (rest : List Rule)
    (fi : FileInfo) (fp : FileProcessing)
    (h : (applyPatternRule opts r fi).1.ignore = true) :
    (preparseRules opts (r :: rest) fi fp).2.2 = [patternName r] := by
  rcases happ : applyPatternRule opts r fi with ⟨fi1, res⟩
  rw [happ] at h
  have h2 : fi1.ignore = true := h
  have hs := applyPatternRule_shape opts r fi
  rw [happ] at hs
  have hpat : res.pattern = patternName r := by
    have := congrArg (fun p => p.2.pattern) hs
    simpa using this
  simp only [preparseRules, happ, h2, if_true]
  simp [hpat]

theorem preparseRules_ignore_init (opts : Options) (fi : FileInfo)
    (h : fi.ignore = true) :
    ∀ (rules : List Rule) (fp : FileProcessing),
      (preparseRules opts rules fi fp).2.2 =
        ((rules.head?.map patternName).toList) ∧
      (preparseRules opts rules fi fp).1.ignore = true := by
  intro rules fp
  cases rules with
  | nil => exact ⟨rfl, h⟩
  | cons r rest =>
      have hmono := applyPatternRule_ignore_mono opts r fi h
      rcases happ : applyPatternRule opts r fi with ⟨fi1, res⟩
      rw [happ] at hmono
      have hm2 : fi1.ignore = true := hmono
      have hs := applyPatternRule_shape opts r fi
      rw [happ] at hs
      have hpat : res.pattern = patternName r := by
        have := congrArg (fun p => p.2.pattern) hs
        simpa using this
      refine ⟨?_, ?_⟩
      · simp only [preparseRules, happ, hm2, if_true]
        simp [hpat]
      · simp only [preparseRules, happ, hm2, if_true]

theorem preparseGroups_ignore_heads (opts : Options)
    (patterns : List (String × List Rule)) :
    ∀ (names : List String) (fi : FileInfo) (fp : FileProcessing),
      fi.ignore = true →
      (preparseGroups opts patterns names fi fp).2.2 =
        names.filterMap (fun nm => ((patternsLookup patterns nm).head?).map patternName) := by
  intro names
  induction names with
  | nil => intro fi fp h; rfl
  | cons nm rest ih =>
      intro fi fp h
      rcases hrun : preparseRules opts (patternsLookup patterns nm) fi (checkSkip fi fp)
        with ⟨fi1, fp1, tr1⟩
      have hr := preparseRules_ignore_init opts fi h (patternsLookup patterns nm) (checkSkip fi fp)
      rw [hrun] at hr
      obtain ⟨htr, hig⟩ := hr
      have htr2 : tr1 = ((patternsLookup patterns nm).head?.map patternName).toList := htr
      have hig2 : fi1.ignore = true := hig
      rcases hrec : preparseGroups opts patterns rest fi1 fp1 with ⟨fi2, fp2, tr2⟩
      have hrec2 := ih fi1 fp1 hig2
      rw [hrec] at hrec2
      have htr3 : tr2 = rest.filterMap
          (fun nm => ((patternsLookup patterns nm).head?).map patternName) := hrec2
      simp only [preparseGroups, hrun, hrec, List.filterMap_cons]
      cases hh : (patternsLookup patterns nm).head? with
      | none =>
          rw [hh] at htr2
          simp only [Option.map_none', Option.toList_none] at htr2
          simp [htr2, htr3]
      | some r0 =>
          rw [hh] at htr2
          simp only [Option.map_some', Option.toList_some] at htr2
          simp [htr2, htr3]

/-- The episode-range condition of the specification, as a boolean:
`from_episode <= e <= to_episode` with defaults `1 .. unbounded`. -/
def episodeInRangeB (r : Rule) (e : Int) : Bool :=
  decide (r.from_episode.getD 1 ≤ e) &&
    (match r.to_episode with
     | some t => decide (e ≤ t)
     | none => true)

theorem inEpisodeRange_eval (r : Rule) (fi : FileInfo) (txt : String) (rx : Regex)
    (hregex : r.regex = some (txt, rx))
    (hrange : r.from_episode ≠ none ∨ r.to_episode ≠ none)
    (hep : fi.episode = none) :
    (rx fi.stem = .ok none → inEpisodeRange r fi = .ok false) ∧
    (∀ m, rx fi.stem = .ok (some m) →
        m.groups.find? (fun g => g.1 = "episode") = none →
        inEpisodeRange r fi = .ok false) ∧
    (∀ m g e, rx fi.stem = .ok (some m) →
        m.groups.find? (fun g => g.1 = "episode") = some g →
        pyIntVal (g.2.map PyVal.vstr) = .ok e →
        inEpisodeRange r fi = .ok (episodeInRangeB r e)) := by
  have hcond : ¬ (r.from_episode = none ∧ r.to_episode = none) := by
    rcases hrange with h | h
    · exact fun hc => h hc.1
    · exact fun hc => h hc.2
  refine ⟨?_, ?_, ?_⟩
  · intro hm
    simp [inEpisodeRange, hcond, hregex, hm, pure, Except.pure]
  · intro m hm hg
    simp [inEpisodeRange, hcond, hregex, hm, hg, pure, Except.pure]
  · intro m g e hm hg he
    simp only [inEpisodeRange, hcond, if_false, hregex, hm, hg, hep]
    rw [he]
    simp only [bind, Except.bind]
    cases hto : r.to_episode with
    | none => simp [episodeInRangeB, hto, pure, Except.pure]
    | some t => simp [episodeInRangeB, hto, pure, Except.pure]

theorem applyPatternRule_gate_false (opts : Options) (r : Rule) (fi : FileInfo)
    (h : inEpisodeRange r fi = .ok false) :
    applyPatternRule opts r fi = (fi, ⟨patternName r, ruleId r, false, none⟩) := by
  unfold applyPatternRule applyPatternRuleBody
  rw [h]
  rfl

theorem applyPatternRule_gate_true (opts : Options) (r : Rule) (fi : FileInfo)
    (h : inEpisodeRange r fi = .ok true) :
    applyPatternRule opts r fi =
      ((applyActions opts r fi).1,
       ⟨patternName r, ruleId r, (applyActions opts r fi).2.1,
        ((applyActions opts r fi).2.2).map PyErr.toStr⟩) := by
  unfold applyPatternRule applyPatternRuleBody
  rw [h]

theorem applyPatternRule_gate_error (opts : Options) (r : Rule) (fi : FileInfo)
    (e : PyErr) (h : inEpisodeRange r fi = .error e) :
    applyPatternRule opts r fi =
      (fi, ⟨patternName r, ruleId r, false, some (PyErr.toStr e)⟩) := by
  unfold applyPatternRule applyPatternRuleBody
  rw [h]
  rfl

theorem preparseRules_skip (opts : Options) (r : Rule) (rest : List Rule)
    (fi : FileInfo) (fp : FileProcessing)
    (h : applyPatternRule opts r fi = (fi, ⟨patternName r, ruleId r, false, none⟩))
    (hig : fi.ignore = false) :
    preparseRules opts (r :: rest) fi fp =
      ((preparseRules opts rest fi fp).1, (preparseRules opts rest fi fp).2.1,
       patternName r :: (preparseRules opts rest fi fp).2.2) := by
  simp only [preparseRules, h]
  simp [errTruthy, checkSkip, hig]

theorem sanitizeMO_eq_filter :
    ∀ cs, sanitizeFilenameMO cs = cs.filter (fun x => !(moInvalidChars.contains x)) := by
  intro cs
  simp only [sanitizeFilenameMO, moInvalidChars, List.foldl_cons, List.foldl_nil,
    pyReplaceChar_delete, List.filter_filter]
  refine List.filter_congr ?_
  intro x _
  simp only [List.contains_cons, List.contains_nil, Bool.or_false, Bool.not_or, bne]
  cases h1 : x == '<' <;> cases h2 : x == '>' <;> cases h3 : x == ':' <;>
    cases h4 : x == '"' <;> cases h5 : x == '/' <;> cases h6 : x == '\\' <;>
    cases h7 : x == '|' <;> cases h8 : x == '?' <;> cases h9 : x == '*' <;> rfl

theorem sanitizeTools_eq :
    ∀ cs, sanitizeFilenameTools cs =
      (cs.map (fun x => if toolsSeparators.contains x then '-' else x)).filter
        (fun x => !(toolsStripChars.contains x)) := by
  intro cs
  simp only [sanitizeFilenameTools, toolsSeparators, toolsStripChars,
    List.foldl_cons, List.foldl_nil, pyReplaceChar_delete, pyReplaceChar_subst,
    List.filter_filter, List.map_map]
  congr 1
  · funext x
    simp only [List.contains_cons, List.contains_nil, Bool.or_false, Bool.not_or, bne]
    cases h1 : x == '<' <;> cases h2 : x == '>' <;> cases h3 : x == ':' <;>
      cases h4 : x == '"' <;> cases h5 : x == '|' <;> cases h6 : x == '?' <;>
      cases h7 : x == '*' <;> rfl
  · congr 1
    funext x
    by_cases h1 : x = '/'
    · subst h1; rfl
    · by_cases h2 : x = '\\'
      · subst h2; rfl
      · simp [Function.comp, h1, h2, List.contains_cons]

/-! ## Concrete fixtures for the scenario theorems -/

/-- An empty global options record (no configured default paddings). -/
def opts0 : Options := {}

/-- A regex matching every stem, with no capture groups. -/
def matchAllRegex : Regex := fun _ =>
  .ok (some { pre := "", matched := "", groups := [], post := "" })

/-- A rule whose only action flags the file ignored. -/
def ruleIgnoreAll : Rule :=
  { name := some "rI", regex := some ("rI-regex", matchAllRegex), ignore := true }

/-- A rule whose only action overwrites the year with 1999. -/
def ruleYear1999 : Rule :=
  { name := some "rX", regex := some ("rX-regex", matchAllRegex), year := some 1999 }

/-- Two pattern groups: the first ignores the file, the second rewrites the
year. -/
def patternsC2 : List (String × List Rule) :=
  [("g1", [ruleIgnoreAll]), ("g2", [ruleYear1999])]

/-- A file subject to both pattern groups. -/
def fiC2 : FileInfo := { stem := "file", processing_patterns := ["g1", "g2"] }

/-- The same file with the ignore flag already set. -/
def fiC2ign : FileInfo :=
  { stem := "file", ignore := true, processing_patterns := ["g1", "g2"] }

/-- The Scenario A stem. -/
def fiA : FileInfo := { stem := "Show.Name.S02E05" }

/-- The first (and only) match of `S(?P<season>\d+)E(?P<episode>\d+)` in the
Scenario A stem. -/
def mA : MatchSplit :=
  { pre := "Show.Name.", matched := "S02E05",
    groups := [("season", some "02"), ("episode", some "05")], post := "" }

/-- A substitution rule whose template references `title`, a key absent from
the merged capture map. -/
def ruleC5 : Rule :=
  { regex := some ("S(?P<season>\\d+)E(?P<episode>\\d+)", sxxExxRegex),
    substitution := some [.ref "title"] }

/-- Scenario A's rule exactly as the specification states it. -/
def ruleC7 : Rule :=
  { regex := some ("S(?P<season>\\d+)E(?P<episode>\\d+)", sxxExxRegex),
    substitution := some [.ref "title", .lit " S", .ref "season", .lit "E", .ref "episode"],
    season_padding := some 2 }

/-- Scenario A's rule with the unresolvable `title` placeholder removed. -/
def ruleC7x : Rule :=
  { ruleC7 with substitution := some [.lit "S", .ref "season", .lit "E", .ref "episode"] }

/-- Scenario B's range-gated rule: episodes 1..12. -/
def ruleB : Rule :=
  { regex := some ("S(?P<season>\\d+)E(?P<episode>\\d+)", sxxExxRegex),
    substitution := some [.ref "season", .lit "x", .ref "episode"],
    episode_offset := -1, from_episode := some 1, to_episode := some 12 }

/-- A stem whose episode (13) lies outside Scenario B's range. -/
def fiB13 : FileInfo := { stem := "Show.S02E13" }

/-- The match of the Scenario B rule regex in `Show.S02E13`. -/
def mB13 : MatchSplit :=
  { pre := "Show.", matched := "S02E13",
    groups := [("season", some "02"), ("episode", some "13")], post := "" }

/-- A regex whose use raises `re.error` (a malformed pattern). -/
def badRegex : Regex := fun _ => .error "missing ), unterminated subpattern"

/-- An ignore rule with a malformed regex. -/
def ruleBad : Rule := { regex := some ("(", badRegex), ignore := true }

/-! ## Claim theorems -/

/-- **C6** counterexample.  The claim says `sanitize` converts every path
separator into a single dash; the sanitizer actually applied to every
generated path segment, `MediaOrganizer._sanitize_filename`, deletes the
separator instead: `sanitize("a/b")` is `"ab"`, not `"a-b"`. -/
theorem c6_counterexample : sanitizeMOStr "a/b" = "ab" ∧ sanitizeMOStr "a/b" ≠ "a-b" :=
  ⟨rfl, by decide⟩

/-- **C6** (amended).  Both sanitizers emit none of `<>:"|?*` and no path
separator.  `MediaOrganizer._sanitize_filename` (used on every generated path
segment) removes every character of `<>:"/\|?*` outright, while
`Tools._sanitize_filename` first converts each separator into a single dash
and then strips `<>:"|?*`; the two full characterizations are stated as
filter/map equalities. -/
theorem c6_theorem :
    (∀ cs, sanitizeFilenameMO cs = cs.filter (fun x => !(moInvalidChars.contains x))) ∧
    (∀ cs, sanitizeFilenameTools cs =
        (cs.map (fun x => if toolsSeparators.contains x then '-' else x)).filter
          (fun x => !(toolsStripChars.contains x))) ∧
    (∀ cs x, x ∈ sanitizeFilenameMO cs → x ∉ moInvalidChars) ∧
    (∀ cs x, x ∈ sanitizeFilenameTools cs → x ∉ toolsStripChars ∧ x ≠ '/' ∧ x ≠ '\\') := by
  refine ⟨sanitizeMO_eq_filter, sanitizeTools_eq, ?_, ?_⟩
  · intro cs x hmem
    rw [sanitizeMO_eq_filter] at hmem
    have hx := (List.mem_filter.mp hmem).2
    simp only [moInvalidChars, List.contains_cons, List.contains_nil, Bool.or_false,
      Bool.not_or, Bool.and_eq_true, Bool.not_eq_true', beq_eq_false_iff_ne] at hx
    simp only [moInvalidChars, List.mem_cons, List.not_mem_nil, or_false]
    tauto
  · intro cs x hmem
    rw [sanitizeTools_eq] at hmem
    have hx := (List.mem_filter.mp hmem).2
    have hy := (List.mem_filter.mp hmem).1
    simp only [toolsStripChars, List.contains_cons, List.contains_nil, Bool.or_false,
      Bool.not_or, Bool.and_eq_true, Bool.not_eq_true', beq_eq_false_iff_ne] at hx
    refine ⟨?_, ?_, ?_⟩
    · simp only [toolsStripChars, List.mem_cons, List.not_mem_nil, or_false]
      tauto
    · obtain ⟨y, _, hfy⟩ := List.mem_map.mp hy
      intro hcontra
      subst hcontra
      by_cases hsep : toolsSeparators.contains y = true
      · rw [if_pos hsep] at hfy
        exact absurd hfy (by decide)
      · rw [if_neg hsep] at hfy
        subst hfy
        simp [toolsSeparators] at hsep
    · obtain ⟨y, _, hfy⟩ := List.mem_map.mp hy
      intro hcontra
      subst hcontra
      by_cases hsep : toolsSeparators.contains y = true
      · rw [if_pos hsep] at hfy
        exact absurd hfy (by decide)
      · rw [if_neg hsep] at hfy
        subst hfy
        simp [toolsSeparators] at hsep

/-- **C6** witness: the membership conjunct applied to a concrete sanitized
output. -/
theorem c6_witness : ('a' : Char) ∉ moInvalidChars :=
  c6_theorem.2.2.1 "a/b".toList 'a' (by decide)

/-- **C2** counterexample.  Rule `rI` of group `g1` flags the file ignored,
yet the evaluation trace shows rule `rX` of the *next* pattern group still
being evaluated (the sources' `break` only leaves the inner loop), and `rX`
even overwrites the year — refuting "no rule of any remaining pattern group
for that file is evaluated afterwards". -/
theorem c2_counterexample :
    (preparse opts0 patternsC2 fiC2 (initFileProcessing "file")).2.2 = ["rI", "rX"] ∧
    (applyPatternRule opts0 ruleIgnoreAll fiC2).1.ignore = true ∧
    fiC2.ignore = false ∧
    (preparse opts0 patternsC2 fiC2 (initFileProcessing "file")).1.year = some 1999 :=
  ⟨rfl, rfl, rfl, rfl⟩

/-- **C2** (amended).  The ignore flag is monotone; once it is true the inner
loop breaks after the rule that is being evaluated — so the remaining rules
of the current group are skipped — but the outer loop still probes exactly the
first rule of each remaining non-empty pattern group (the 'break' leaves only
the inner loop). -/
theorem c2_theorem :
    (∀ opts r fi, fi.ignore = true → (applyPatternRule opts r fi).1.ignore = true) ∧
    (∀ opts r rest fi fp, (applyPatternRule opts r fi).1.ignore = true →
        (preparseRules opts (r :: rest) fi fp).2.2 = [patternName r]) ∧
    (∀ opts patterns names fi fp, fi.ignore = true →
        (preparseGroups opts patterns names fi fp).2.2 =
          names.filterMap (fun nm => ((patternsLookup patterns nm).head?).map patternName)) :=
  ⟨applyPatternRule_ignore_mono,
   fun opts r rest fi fp h => preparseRules_break opts r rest fi fp h,
   fun opts patterns names fi fp h => preparseGroups_ignore_heads opts patterns names fi fp h⟩

/-- **C2** witness: the amended statement applied to a file that enters the
loop already flagged ignored — each of its two groups contributes exactly its
first rule to the evaluation trace. -/
theorem c2_witness :
    (applyPatternRule opts0 ruleIgnoreAll fiC2ign).1.ignore = true ∧
    (preparseGroups opts0 patternsC2 ["g1", "g2"] fiC2ign
      (initFileProcessing "file")).2.2 = ["rI", "rX"] := by
  constructor
  · exact c2_theorem.1 opts0 ruleIgnoreAll fiC2ign rfl
  · rw [c2_theorem.2.2 opts0 patternsC2 ["g1", "g2"] fiC2ign (initFileProcessing "file") rfl]
    rfl

/-- **C5** counterexample.  The rule's template references `title`, which is
absent from the merged capture map; the claim says this records an error in
the rule's outcome record.  In fact the `KeyError` is caught inside
`regex_rename`, which returns `False`: the outcome record carries *no* error,
the rule is absent from the per-file outcome log (only the following year
rule appears), and evaluation continues with the next rule. -/
theorem c5_counterexample :
    (applyPatternRule opts0 ruleC5 fiA).2.error = none ∧
    (applyPatternRule opts0 ruleC5 fiA).2.applied = false ∧
    (applyPatternRule opts0 ruleC5 fiA).1 = fiA ∧
    ((preparseRules opts0 [ruleC5, ruleYear1999] fiA
        (initFileProcessing "f")).2.1.preprocessing_outcome).map
      (fun res => (res.pattern, res.applied, res.error)) = [("rX", true, none)] ∧
    (preparseRules opts0 [ruleC5, ruleYear1999] fiA (initFileProcessing "f")).2.2 =
      ["S(?P<season>\\d+)E(?P<episode>\\d+)", "rX"] :=
  ⟨rfl, rfl, rfl, rfl, rfl⟩

/-- **C5** (amended).  For a substitution rule whose template references a key
absent from the merged capture map (the rendering raising `KeyError`), the
stem is left unchanged and the rule's outcome record is `applied = false`
with *no* recorded error — so the rule does not appear in the outcome log —
and evaluation continues with the next rule; neither the file nor the scan
fails. -/
theorem c5_theorem :
    ∀ (opts : Options) (r : Rule) (fi : FileInfo) (txt : String) (rx : Regex)
      (t : Template) (m : MatchSplit) (k : String),
      r.regex = some (txt, rx) → r.substitution = some t →
      r.ignore = false → yearTruthy r.year = false →
      r.from_episode = none → r.to_episode = none → r.folder_regex = none →
      fi.ignore = false →
      rx fi.stem = .ok (some m) →
      replFn opts r [] m = .error (.keyError k) →
      applyPatternRule opts r fi =
        (fi, ⟨patternName r, ruleId r, false, none⟩) ∧
      (∀ rest fp, preparseRules opts (r :: rest) fi fp =
          ((preparseRules opts rest fi fp).1, (preparseRules opts rest fi fp).2.1,
           patternName r :: (preparseRules opts rest fi fp).2.2)) := by
  intro opts r fi txt rx t m k hregex hsubst hign hyear hfrom hto hfr hfig hm hrepl
  have hgate : inEpisodeRange r fi = .ok true := by
    simp [inEpisodeRange, hfrom, hto, pure, Except.pure]
  have hsub : reSub rx (replFn opts r []) fi.stem (fi.stem.length + 1) =
      .error (.keyError k) := by
    simp only [reSub, hm, hrepl]
    rfl
  have hrr : regexRename opts r fi = .ok (fi, false) := by
    unfold regexRename
    simp only [hregex, hm, hfr, hsub]
  have hact : applyActions opts r fi = (fi, false, none) := by
    simp [applyActions, actSeq, actIgnore, actSubst, actYear,
      hregex, hsubst, hign, hyear, hrr]
  have happ : applyPatternRule opts r fi =
      (fi, ⟨patternName r, ruleId r, false, none⟩) := by
    rw [applyPatternRule_gate_true opts r fi hgate, hact]
    rfl
  exact ⟨happ, fun rest fp => preparseRules_skip opts r rest fi fp happ hfig⟩

/-- **C5** witness: the amended statement applied to the concrete missing-key
rule of the counterexample. -/
theorem c5_witness :
    applyPatternRule opts0 ruleC5 fiA =
      (fiA, ⟨patternName ruleC5, ruleId ruleC5, false, none⟩) :=
  (c5_theorem opts0 ruleC5 fiA "S(?P<season>\\d+)E(?P<episode>\\d+)" sxxExxRegex
    [.ref "title"] mA "title" rfl rfl rfl rfl rfl rfl rfl rfl rfl rfl).1

/-- **C7** counterexample.  Scenario A as stated does not render `02`/`05` at
all: the substitution `"{title} S{season}E{episode}"` references `title`,
which is not among the rule regex's capture groups (`season`, `episode`) and
no `folder_regex` is declared, so the rendering raises `KeyError`, the rule
is not applied and the stem is left unchanged. -/
theorem c7_counterexample :
    (applyPatternRule opts0 ruleC7 fiA).2.applied = false ∧
    (applyPatternRule opts0 ruleC7 fiA).1 = fiA ∧
    (applyPatternRule opts0 ruleC7 fiA).2.error = none :=
  ⟨rfl, rfl, rfl⟩

/-- **C7** (amended).  With the unresolvable `{title}` placeholder removed
(substitution `"S{season}E{episode}"`), the Scenario A rewrite applies: the
match captures season `02` and episode `05`, the template renders `S02E05`
(season as `02`, episode as `05`), and the rule reports applied. -/
theorem c7_theorem :
    sxxExxRegex "Show.Name.S02E05" = .ok (some mA) ∧
    replFn opts0 ruleC7x [] mA = .ok "S02E05" ∧
    regexRename opts0 ruleC7x fiA = .ok (fiA, true) ∧
    (applyPatternRule opts0 ruleC7x fiA).2.applied = true :=
  ⟨rfl, rfl, rfl, rfl⟩

/-- **C4** (as stated).  For a rule declaring an episode range (and carrying a
regex) evaluated on a file whose info carries no episode override (as every
pipeline-built file info does): no regex match, no `episode` capture group, or
an extracted episode outside `[from_episode, to_episode]` (defaults
`1..unbounded`) yields the untouched default outcome record — which the loop
never appends to the outcome log, continuing with the next rule — while an
extracted episode inside the range makes the rule eligible and its actions
run. -/
theorem c4_theorem :
    ∀ (opts : Options) (r : Rule) (fi : FileInfo) (txt : String) (rx : Regex),
      r.regex = some (txt, rx) →
      (r.from_episode ≠ none ∨ r.to_episode ≠ none) →
      fi.episode = none →
      (rx fi.stem = .ok none →
          applyPatternRule opts r fi = (fi, ⟨patternName r, ruleId r, false, none⟩)) ∧
      (∀ m, rx fi.stem = .ok (some m) →
          m.groups.find? (fun g => g.1 = "episode") = none →
          applyPatternRule opts r fi = (fi, ⟨patternName r, ruleId r, false, none⟩)) ∧
      (∀ m g e, rx fi.stem = .ok (some m) →
          m.groups.find? (fun g => g.1 = "episode") = some g →
          pyIntVal (g.2.map PyVal.vstr) = .ok e →
          episodeInRangeB r e = false →
          applyPatternRule opts r fi = (fi, ⟨patternName r, ruleId r, false, none⟩)) ∧
      (∀ m g e, rx fi.stem = .ok (some m) →
          m.groups.find? (fun g => g.1 = "episode") = some g →
          pyIntVal (g.2.map PyVal.vstr) = .ok e →
          episodeInRangeB r e = true →
          applyPatternRule opts r fi =
            ((applyActions opts r fi).1,
             ⟨patternName r, ruleId r, (applyActions opts r fi).2.1,
              ((applyActions opts r fi).2.2).map PyErr.toStr⟩)) ∧
      (∀ rest fp, fi.ignore = false →
          applyPatternRule opts r fi = (fi, ⟨patternName r, ruleId r, false, none⟩) →
          preparseRules opts (r :: rest) fi fp =
            ((preparseRules opts rest fi fp).1, (preparseRules opts rest fi fp).2.1,
             patternName r :: (preparseRules opts rest fi fp).2.2)) := by
  intro opts r fi txt rx hregex hrange hep
  obtain ⟨h1, h2, h3⟩ := inEpisodeRange_eval r fi txt rx hregex hrange hep
  refine ⟨?_, ?_, ?_, ?_, ?_⟩
  · intro hm
    exact applyPatternRule_gate_false opts r fi (h1 hm)
  · intro m hm hg
    exact applyPatternRule_gate_false opts r fi (h2 m hm hg)
  · intro m g e hm hg he hout
    have hg3 := h3 m g e hm hg he
    rw [hout] at hg3
    exact applyPatternRule_gate_false opts r fi hg3
  · intro m g e hm hg he hin
    have hg3 := h3 m g e hm hg he
    rw [hin] at hg3
    exact applyPatternRule_gate_true opts r fi hg3
  · intro rest fp hfig happ
    exact preparseRules_skip opts r rest fi fp happ hfig

/-- **C4** witness: Scenario B's rule on episode 13 (outside 1..12) — skipped
with the untouched default record. -/
theorem c4_witness :
    applyPatternRule opts0 ruleB fiB13 =
      (fiB13, ⟨patternName ruleB, ruleId ruleB, false, none⟩) :=
  (c4_theorem opts0 ruleB fiB13 "S(?P<season>\\d+)E(?P<episode>\\d+)" sxxExxRegex
      rfl (Or.inl (by decide)) rfl).2.2.1 mB13 ("episode", some "13") 13
    rfl rfl rfl (by decide)

/-- **C10** (as stated).  `apply_pattern_rule` is total: its result always is
the pair of the (possibly mutated) file info and a record with exactly the
fields `pattern` (rule name, else regex text, else `unnamed`), `id` (the
content hash), `applied`, and `error`; the `error` field is exactly the
string of the exception raised by the gated action body, if any — no
exception propagates.  In particular a malformed regex in an ignore rule ends
up as that rule's `error` string with the file info untouched. -/
theorem c10_theorem :
    ∀ (opts : Options) (r : Rule) (fi : FileInfo),
      (applyPatternRule opts r fi =
        ((applyPatternRuleBody opts r fi).1,
         ⟨patternName r, ruleId r, (applyPatternRuleBody opts r fi).2.1,
          ((applyPatternRuleBody opts r fi).2.2).map PyErr.toStr⟩)) ∧
      (∀ txt rx msg, r.regex = some (txt, rx) → r.from_episode = none →
        r.to_episode = none → r.ignore = true → rx fi.stem = .error msg →
        applyPatternRule opts r fi =
          (fi, ⟨patternName r, ruleId r, false, some msg⟩)) := by
  intro opts r fi
  constructor
  · exact applyPatternRule_shape opts r fi
  · intro txt rx msg hregex hfrom hto hign hm
    have hgate : inEpisodeRange r fi = .ok true := by
      simp [inEpisodeRange, hfrom, hto, pure, Except.pure]
    rw [applyPatternRule_gate_true opts r fi hgate]
    have hact : applyActions opts r fi = (fi, false, some (.reError msg)) := by
      simp [applyActions, actSeq, actIgnore, hregex, hign, hm]
    rw [hact]
    rfl

/-- **C10** witness: a malformed ignore-rule regex — the `re.error` message is
stored as the record's error string, nothing propagates. -/
theorem c10_witness :
    applyPatternRule opts0 ruleBad fiA =
      (fiA, ⟨"(", ruleId ruleBad, false, some "missing ), unterminated subpattern"⟩) :=
  (c10_theorem opts0 ruleBad fiA).2 "(" badRegex
    "missing ), unterminated subpattern" rfl rfl rfl rfl rfl

/-! ## Pipeline fixtures and helper lemmas -/

/-- Whether an event is a tv-show search query. -/
def Ev.isTvQ : Ev → Bool
  | .tvQuery _ _ => true
  | _ => false

/-- A naming configuration mirroring the repository's test configuration. -/
def namingW : NamingCfg :=
  { movie_pattern := some [.ref "title", .lit " (", .ref "year", .lit ")"],
    tv_show_pattern := [.ref "title", .lit "/Season ", .refPad "season" 2],
    episode_pattern := some [.ref "title", .lit " - S", .refPad "season" 2, .lit "E",
      .refPad "episode" 2, .lit " - ", .ref "episode_title"] }

/-- A paths configuration. -/
def pathsW : PathsCfg :=
  { destination_folder := "/media", movie_folder := "Movies", tv_show_folder := "TVShows" }

/-- An organizer state with the fixture configuration and fresh statistics. -/
def stW1 : OrganizerState := { naming := namingW, paths := pathsW }

/-- The same configuration with different non-configuration state (running
statistics, accumulated ledger rows). -/
def stW2 : OrganizerState :=
  { naming := namingW, paths := pathsW, statsSkipped := 7,
    ledgerRows := [initFileProcessing "x"] }

/-- A movie regex extracting `title` and `year` from the Scenario C stem. -/
def movieRxC8 : CRegex := fun s =>
  if s = "Movie.Title.2020" then
    some { pre := "", matched := "Movie.Title.2020",
           groups := [("title", some "Movie.Title"), ("year", some "2020")], post := "" }
  else none

/-- A catalog in which every lookup misses. -/
def envNone : PipeEnv :=
  { searchMovie := fun _ _ => none, searchTvShow := fun _ _ => none,
    getEpisodeDetails := fun _ _ _ => none,
    linkOutcome := fun _ => { outcome := true, error := none } }

/-- The Scenario C file `Movie.Title.2020.mkv`. -/
def fiC8 : FileInfo :=
  { stem := "Movie.Title.2020", origStem := "Movie.Title.2020",
    suffix := ".mkv", origSuffix := ".mkv", destination_subfolder := some "" }

/-- The Scenario C file info after parsing. -/
def fiC8p : FileInfo :=
  { fiC8 with title := some "Movie Title", year := some 2020 }

theorem processMovie_double_miss (env : PipeEnv) (movieRx : CRegex)
    (st : OrganizerState) (fi fi' : FileInfo)
    (hp : parseMovieFilename movieRx fi = .ok fi')
    (h1 : strTruthy fi'.title = true) (h2 : yearTruthy fi'.year = true)
    (hm1 : env.searchMovie (fi'.title.getD "") fi'.year = none)
    (hm2 : env.searchMovie (guessCorrectTitle fi'.origStem) none = none) :
    processMovie env movieRx st fi =
      .ok ({ outcome := false,
             error := some ("Media non disponibile su TMDB [" ++ fi'.stem ++ fi'.suffix ++ "]") },
           [.movieQuery (fi'.title.getD "") fi'.year,
            .movieQuery (guessCorrectTitle fi'.origStem) none]) := by
  unfold processMovie
  rw [hp]
  simp only [bind, Except.bind]
  rw [if_neg (not_not_intro ⟨h1, h2⟩)]
  rw [hm1, hm2]
  rfl

theorem processTvShow_single_query (env : PipeEnv) (tvRx : CRegex)
    (st : OrganizerState) (fi : FileInfo) (out : Outcome × List Ev)
    (h : processTvShow env tvRx st fi = .ok out) :
    (out.2.filter Ev.isTvQ).length ≤ 1 := by
  unfold processTvShow at h
  cases hp : parseTvFilename tvRx fi.stem with
  | error e =>
      rw [hp] at h
      simp [bind, Except.bind] at h
  | ok parsed =>
      rw [hp] at h
      simp only [bind, Except.bind] at h
      cases parsed with
      | none =>
          simp only [pure, Except.pure, Except.ok.injEq] at h
          subst h
          simp [Ev.isTvQ]
      | some trip =>
          obtain ⟨title, season, episode⟩ := trip
          dsimp only at h
          cases hs : env.searchTvShow title (tvYearParam fi) with
          | none =>
              rw [hs] at h
              simp only [pure, Except.pure, Except.ok.injEq] at h
              subst h
              simp [Ev.isTvQ, List.filter]
          | some tv =>
              rw [hs] at h
              simp only [bind, Except.bind] at h
              cases hg : generateTvPath st tv (env.getEpisodeDetails tv.id season episode)
                  season episode fi with
              | error e =>
                  rw [hg] at h
                  simp at h
              | ok dest =>
                  rw [hg] at h
                  simp only [pure, Except.pure, Except.ok.injEq] at h
                  subst h
                  simp [Ev.isTvQ, List.filter]

/-- **C8** counterexample.  For `Movie.Title.2020.mkv` the first query is the
parsed, dot-normalised title `"Movie Title"` with year 2020, but the retry
query is `guess_correct_title` of the *original stem* — `"Movie.Title.2020"`,
dots and year token intact, with no year parameter — so the retry query does
not equal the first query, contrary to the claim's final sentence. -/
theorem c8_counterexample :
    processMovie envNone movieRxC8 stW1 fiC8 =
      .ok ({ outcome := false,
             error := some "Media non disponibile su TMDB [Movie.Title.2020.mkv]" },
           [.movieQuery "Movie Title" (some 2020),
            .movieQuery "Movie.Title.2020" none]) ∧
    guessCorrectTitle "Movie.Title.2020" = "Movie.Title.2020" ∧
    ("Movie.Title.2020" : String) ≠ "Movie Title" :=
  ⟨rfl, rfl, by decide⟩

/-- **C8** (amended).  A movie whose first catalog lookup misses is retried
exactly once, querying `guess_correct_title` of the original filename stem
(bracketed text and scene tokens stripped — but dots not normalised and no
year parameter, so the retry query generally differs from the first); a
second miss terminates as a not-found failure with no placement event and no
success outcome.  Tv lookups are never retried: any successful run of
`process_tv_show` contains at most one tv search query. -/
theorem c8_theorem :
    (∀ (env : PipeEnv) (movieRx : CRegex) (st : OrganizerState) (fi fi' : FileInfo),
      parseMovieFilename movieRx fi = .ok fi' →
      strTruthy fi'.title = true → yearTruthy fi'.year = true →
      env.searchMovie (fi'.title.getD "") fi'.year = none →
      env.searchMovie (guessCorrectTitle fi'.origStem) none = none →
      processMovie env movieRx st fi =
        .ok ({ outcome := false,
               error := some ("Media non disponibile su TMDB [" ++ fi'.stem ++ fi'.suffix ++ "]") },
             [.movieQuery (fi'.title.getD "") fi'.year,
              .movieQuery (guessCorrectTitle fi'.origStem) none])) ∧
    (∀ (env : PipeEnv) (tvRx : CRegex) (st : OrganizerState) (fi : FileInfo)
        (out : Outcome × List Ev),
      processTvShow env tvRx st fi = .ok out →
      (out.2.filter Ev.isTvQ).length ≤ 1) :=
  ⟨processMovie_double_miss, processTvShow_single_query⟩

/-- **C8** witness: the amended movie statement applied to the Scenario C
fixtures. -/
theorem c8_witness :
    processMovie envNone movieRxC8 stW1 fiC8 =
      .ok ({ outcome := false,
             error := some ("Media non disponibile su TMDB [" ++ fiC8p.stem ++ fiC8p.suffix ++ "]") },
           [.movieQuery (fiC8p.title.getD "") fiC8p.year,
            .movieQuery (guessCorrectTitle fiC8p.origStem) none]) :=
  c8_theorem.1 envNone movieRxC8 stW1 fiC8 fiC8p rfl rfl rfl rfl rfl

/-- **C9** (as stated).  Path generation is pure and deterministic: two
organizer states agreeing on the naming templates and path configuration—
regardless of any other state such as running statistics or accumulated
ledger rows—generate identical movie and tv destination paths for identical
metadata. -/
theorem c9_theorem :
    ∀ (st1 st2 : OrganizerState),
      st1.naming = st2.naming → st1.paths = st2.paths →
      (∀ mi fi, generateMoviePath st1 mi fi = generateMoviePath st2 mi fi) ∧
      (∀ tv ep s e fi, generateTvPath st1 tv ep s e fi = generateTvPath st2 tv ep s e fi) := by
  intro st1 st2 h1 h2
  constructor
  · intro mi fi
    simp only [generateMoviePath, h1, h2]
  · intro tv ep s e fi
    simp only [generateTvPath, h1, h2]

/-- **C9** witness: two states with identical configuration but different
statistics and ledger rows produce the identical concrete movie path. -/
theorem c9_witness :
    generateMoviePath stW1 { title := "Movie Title", release_date := "2020-01-01" } fiC8 =
      generateMoviePath stW2 { title := "Movie Title", release_date := "2020-01-01" } fiC8 ∧
    stW1.statsSkipped ≠ stW2.statsSkipped ∧
    generateMoviePath stW1 { title := "Movie Title", release_date := "2020-01-01" } fiC8 =
      .ok "/media/Movies/Movie Title (2020)/Movie.Title.2020.mkv" :=
  ⟨(c9_theorem stW1 stW2 rfl rfl).1 _ fiC8, by decide, rfl⟩

/-! ## Scan-loop fixtures -/

/-- The configured video-extension allow-list. -/
def vext0 : List String := [".mkv"]

/-- Two discoverable video files. -/
def fA' : FileSpec := { path := "a.mkv", suffix := ".mkv" }

/-- See `fA'`. -/
def fB' : FileSpec := { path := "b.mkv", suffix := ".mkv" }

/-- An abstract per-file body producing a successful terminal outcome and no
external events. -/
def perFile0 : FileSpec → FileProcessing × List Ev := fun f =>
  ({ name := f.path, preprocessing_outcome := [],
     processing_outcome := { outcome := true, error := none }, skipped := false }, [])

/-- A file whose path is in the ledger but whose size differs from the
recorded one. -/
def fC3 : FileSpec :=
  { path := "tv/Show.S01E01.mkv", suffix := ".mkv", size := 5, mtime := 100 }

/-- The ledger entry the specification describes for that file, with a
different recorded size. -/
def entryC3 : LedgerEntry :=
  { relDir := "tv", filename := "Show.S01E01.mkv", size := 10, mtime := 100 }

/-- The prior-success path list the code consumes. -/
def ledgerC3 : List String := ["tv/Show.S01E01.mkv"]

/-- **C1** counterexample.  After the loop finishes file `a.mkv` and moves on
to `b.mkv`, the file's terminal outcome sits only in the in-memory
`stats['files']`; the ledger is still empty — it receives both records only
in the single `store_info` batch after the loop. -/
theorem c1_counterexample :
    (scanStep vext0 [] perFile0 {} fA').1.ledger = [] ∧
    (scanStep vext0 [] perFile0 {} fA').1.statsFiles =
      [{ name := "a.mkv", preprocessing_outcome := [],
         processing_outcome := { outcome := true, error := none }, skipped := false }] ∧
    (scanAndOrganize vext0 [] perFile0 [fA', fB'] {}).1.ledger =
      [{ name := "a.mkv", preprocessing_outcome := [],
         processing_outcome := { outcome := true, error := none }, skipped := false },
       { name := "b.mkv", preprocessing_outcome := [],
         processing_outcome := { outcome := true, error := none }, skipped := false }] :=
  ⟨rfl, rfl, rfl⟩

/-- **C1** (amended).  No per-file iteration writes the ledger: terminal
outcomes are accumulated in memory and persisted in one batch by
`store_info` only after the whole loop has finished.  Consequently an
interrupted scan loses the outcomes of *every* file of the current run, not
just the file in flight. -/
theorem c1_theorem :
    (∀ vext already perFile (st : ScanState) f,
        (scanStep vext already perFile st f).1.ledger = st.ledger) ∧
    (∀ vext already perFile files (st : ScanState),
        (scanFiles vext already perFile files st).1.ledger = st.ledger) ∧
    (∀ vext already perFile files (st : ScanState),
        (scanAndOrganize vext already perFile files st).1.ledger =
          st.ledger ++ (scanFiles vext already perFile files st).1.statsFiles) := by
  have hstep : ∀ vext already perFile (st : ScanState) f,
      (scanStep vext already perFile st f).1.ledger = st.ledger := by
    intro vext already perFile st f
    unfold scanStep
    split
    · rfl
    · rfl
  have hfold : ∀ vext already perFile files (st : ScanState),
      (scanFiles vext already perFile files st).1.ledger = st.ledger := by
    intro vext already perFile files
    induction files with
    | nil => intro st; rfl
    | cons f rest ih =>
        intro st
        simp only [scanFiles]
        rw [ih]
        exact hstep vext already perFile st f
  refine ⟨hstep, hfold, ?_⟩
  intro vext already perFile files st
  unfold scanAndOrganize storeInfo
  simp only
  rw [hfold]

/-- **C3** counterexample.  The file's path string is in the prior-success
list, so the scan terminates it as a skip (no rule evaluation, no catalog
call, nothing recorded) — even though its size (5) differs from the size the
ledger entry records (10), i.e. even though the claim's cross-checked
identity does *not* match.  The skip criterion is therefore not the
size/mtime-cross-checked identity the claim describes. -/
theorem c3_counterexample :
    skipThisFile vext0 fC3 ledgerC3 = true ∧
    specIdentityMatch "tv" "Show.S01E01.mkv" fC3.size fC3.mtime entryC3 = false ∧
    scanStep vext0 ledgerC3 perFile0 {} fC3 = ({}, []) :=
  ⟨rfl, rfl, rfl⟩

/-- **C3** (amended).  A file accepted by `skip_this_file` is terminated
before anything happens: no rule evaluation, no external catalog call, no
record appended.  For a regular video file the skip decision is exactly
membership of the full path string in the prior-success list; it is
independent of the file's size and modification time (no cross-check is
performed). -/
theorem c3_theorem :
    (∀ vext already perFile (st : ScanState) f,
        skipThisFile vext f already = true →
        scanStep vext already perFile st f = (st, [])) ∧
    (∀ (vext : List String) (f : FileSpec) already, f.isFile = true →
        vext.contains (strLower f.suffix) = true →
        (skipThisFile vext f already = true ↔ already.contains f.path = true)) ∧
    (∀ vext already (f : FileSpec) s1 m1 s2 m2,
        skipThisFile vext { f with size := s1, mtime := m1 } already =
          skipThisFile vext { f with size := s2, mtime := m2 } already) := by
  refine ⟨?_, ?_, ?_⟩
  · intro vext already perFile st f h
    unfold scanStep
    rw [if_pos h]
  · intro vext f already hfile hext
    unfold skipThisFile
    have hext' : strLower f.suffix ∈ vext := by simpa using hext
    by_cases hc : already.contains f.path = true
    · simp [hc, hfile, hext']
    · simp [hc, hfile, hext']
  · intro vext already f s1 m1 s2 m2
    rfl

/-- **C3** witness: the amended statement applied to the concrete skipped
file. -/
theorem c3_witness :
    scanStep vext0 ledgerC3 perFile0 {} fC3 = ({}, []) ∧
    (skipThisFile vext0 fC3 ledgerC3 = true ↔ ledgerC3.contains fC3.path = true) :=
  ⟨c3_theorem.1 vext0 ledgerC3 perFile0 {} fC3 rfl,
   c3_theorem.2.1 vext0 fC3 ledgerC3 rfl rfl⟩

end AMO
